import Mathlib

/-!
Verification development for a calorie and meal planning pipeline.
The program computes BMR (Mifflin-St Jeor), scales it to a maintenance
level, applies a fat-loss multiplier, splits macros (fixed fat, fixed
protein ratio, residual carbs), apportions carbs and protein across four
meals using a training-timing rule, and suggests foods from an optional
catalog. All real arithmetic is modelled over the rationals.
-/

namespace Planner

/-- The two sexes accepted by the profile form. -/
inductive Sex
  | Male
  | Female
deriving DecidableEq

/-- Strength training levels offered by the sidebar. -/
inductive StrengthLevel
  | Beginner
  | Intermediate
  | Advanced
deriving DecidableEq

/-- Activity inputs collected in the sidebar: whether the user strength
trains, at which level, and average cardio kcal per day. -/
structure ActivityInputs where
  has_strength : Bool
  strength_level : StrengthLevel
  cardio_cal : ℚ

/-- Mifflin-St Jeor BMR. Source: calc_bmr_mifflin.
Male: weight*9.99 + height*6.25 - age*4.92 + 5; Female: same - 161. -/
def calc_bmr_mifflin (weight height_cm age : ℚ) (sex : Sex) : ℚ :=
  match sex with
  | Sex.Male => weight * 9.99 + height_cm * 6.25 - age * 4.92 + 5
  | Sex.Female => weight * 9.99 + height_cm * 6.25 - age * 4.92 - 161

/-- Source: grams_to_cal_fat. -/
def grams_to_cal_fat (g : ℚ) : ℚ := g * 9

/-- Source: no_activity_total = bmr / 0.7. -/
def no_activity_total (bmr : ℚ) : ℚ := bmr / 0.7

/-- Source: strength_est_map = Beginner 150, Intermediate 200, Advanced 250. -/
def strength_est_map : StrengthLevel → ℚ
  | StrengthLevel.Beginner => 150
  | StrengthLevel.Intermediate => 200
  | StrengthLevel.Advanced => 250

/-- Source: strength_cal is the level lookup when strength training is on,
otherwise 0. -/
def strength_cal (act : ActivityInputs) : ℚ :=
  if act.has_strength then strength_est_map act.strength_level else 0

/-- Source: training-day target. With strength: f1 = (b + c + d) * 0.64;
without: f = (b + d) * 0.64. -/
def daily_target_train (bmr : ℚ) (act : ActivityInputs) : ℚ :=
  if act.has_strength then
    (no_activity_total bmr + strength_cal act + act.cardio_cal) * 0.64
  else
    (no_activity_total bmr + act.cardio_cal) * 0.64

/-- Source: rest-day target. With strength: f2 = (b + d) * 0.64;
without: the same single f as the training day. -/
def daily_target_rest (bmr : ℚ) (act : ActivityInputs) : ℚ :=
  if act.has_strength then
    (no_activity_total bmr + act.cardio_cal) * 0.64
  else
    (no_activity_total bmr + act.cardio_cal) * 0.64

/-- Source: fixed fat grams. Male: 70 if weight >= 120 else 60; Female: 50. -/
def fat_grams (sex : Sex) (weight_kg : ℚ) : ℚ :=
  match sex with
  | Sex.Male => if weight_kg ≥ 120 then 70 else 60
  | Sex.Female => 50

/-- Source: fat_kcal = grams_to_cal_fat fat_grams. -/
def fat_kcal (sex : Sex) (weight_kg : ℚ) : ℚ :=
  grams_to_cal_fat (fat_grams sex weight_kg)

/-- Round to nearest integer, ties to even, as Python round does. -/
def roundTE (q : ℚ) : ℤ :=
  let f := ⌊q⌋
  let r := q - f
  if r < 1/2 then f
  else if 1/2 < r then f + 1
  else if f % 2 = 0 then f else f + 1

/-- Python round(x, 1): round to one decimal place, ties to even. -/
def pyRound1 (q : ℚ) : ℚ := (roundTE (q * 10) : ℚ) / 10

/-- Python int(x): truncation toward zero. -/
def truncQ (q : ℚ) : ℤ := if 0 ≤ q then ⌊q⌋ else ⌈q⌉

/-- Source: protein_g_per_kg = 1.8. -/
def protein_g_per_kg : ℚ := 1.8

/-- Source: protein_grams = round(protein_g_per_kg * weight_kg, 1). -/
def protein_grams (weight_kg : ℚ) : ℚ := pyRound1 (protein_g_per_kg * weight_kg)

/-- Source: protein_kcal = protein_grams * 4. -/
def protein_kcal (weight_kg : ℚ) : ℚ := protein_grams weight_kg * 4

/-- Source: remaining_kcal = daily_target - fat_kcal - protein_kcal,
before the negativity check. -/
def remaining_kcal_raw (sex : Sex) (weight_kg daily_target : ℚ) : ℚ :=
  daily_target - fat_kcal sex weight_kg - protein_kcal weight_kg

/-- Source: the st.error warning fires exactly when remaining_kcal < 0. -/
def over_budget_warning (sex : Sex) (weight_kg daily_target : ℚ) : Bool :=
  remaining_kcal_raw sex weight_kg daily_target < 0

/-- Source: if remaining_kcal < 0 then remaining_kcal = max(0, remaining_kcal). -/
def remaining_kcal (sex : Sex) (weight_kg daily_target : ℚ) : ℚ :=
  if remaining_kcal_raw sex weight_kg daily_target < 0 then
    max 0 (remaining_kcal_raw sex weight_kg daily_target)
  else
    remaining_kcal_raw sex weight_kg daily_target

/-- Source: carb_grams = round(remaining_kcal / 4, 1). -/
def carb_grams (sex : Sex) (weight_kg daily_target : ℚ) : ℚ :=
  pyRound1 (remaining_kcal sex weight_kg daily_target / 4)

end Planner

namespace Planner

/-- The four named meals, in the fixed order of the plan. -/
inductive Meal
  | Breakfast
  | Lunch
  | Dinner
  | Snack
deriving DecidableEq, Fintype

/-- The eight training-timing choices of the selectbox. -/
inductive TrainTiming
  | AfterBreakfastEarly
  | AfterBreakfastLate
  | BeforeLunch
  | AfterLunch
  | BeforeDinner
  | AfterDinner
  | LateNight
  | RestDay
deriving DecidableEq, Fintype

/-- The exact option strings of the training-timing selectbox. -/
def train_timing_str : TrainTiming → String
  | TrainTiming.AfterBreakfastEarly => "Train after breakfast (early wake)"
  | TrainTiming.AfterBreakfastLate => "Train after breakfast (late wake)"
  | TrainTiming.BeforeLunch => "Train before lunch"
  | TrainTiming.AfterLunch => "Train after lunch"
  | TrainTiming.BeforeDinner => "Train before dinner"
  | TrainTiming.AfterDinner => "Train after dinner"
  | TrainTiming.LateNight => "Train late night"
  | TrainTiming.RestDay => "Rest day"

/-- Lowercase the characters of a string, as str.lower() does on ASCII. -/
def lower_chars (s : String) : List Char := s.data.map Char.toLower

/-- Whether the first list is an initial segment of the second. -/
def hasLead : List Char → List Char → Bool
  | [], _ => true
  | _ :: _, [] => false
  | a :: as, b :: bs => a == b && hasLead as bs

/-- Whether the needle occurs as a contiguous run inside the haystack. -/
def containsChars (needle : List Char) : List Char → Bool
  | [] => hasLead needle []
  | c :: cs => hasLead needle (c :: cs) || containsChars needle cs

/-- Python needle in hay.lower(), for the lowercase needles of the source. -/
def str_in (needle hay : String) : Bool :=
  containsChars needle.data (lower_chars hay)

/-- Source: resolution of which meal is post-workout, an elif chain of
substring tests on the lowercased timing string. -/
def post_workout_meal (t : TrainTiming) : Meal :=
  let s := train_timing_str t
  if str_in "breakfast" s && str_in "after" s then Meal.Breakfast
  else if str_in "before lunch" s || str_in "after lunch" s then Meal.Lunch
  else if str_in "before dinner" s || str_in "after dinner" s then Meal.Dinner
  else if str_in "late night" s then Meal.Dinner
  else Meal.Lunch

/-- Keys of the carb_splits dict of the source. -/
inductive CarbSlot
  | Breakfast
  | PostWorkout
  | Dinner
  | Snack
deriving DecidableEq

/-- Source: carb_splits = Breakfast 0.20, PostWorkout 0.40, Dinner 0.30,
Snack 0.10. -/
def carb_splits : CarbSlot → ℚ
  | CarbSlot.Breakfast => 0.20
  | CarbSlot.PostWorkout => 0.40
  | CarbSlot.Dinner => 0.30
  | CarbSlot.Snack => 0.10

/-- Source: protein_splits = Breakfast 0.20, Lunch 0.30, Dinner 0.30,
Snack 0.20. -/
def protein_splits : Meal → ℚ
  | Meal.Breakfast => 0.20
  | Meal.Lunch => 0.30
  | Meal.Dinner => 0.30
  | Meal.Snack => 0.20

/-- Source line 262: carb_by_meal starts as Breakfast 0, Lunch 0, Dinner 0,
Snack carb_splits Snack. -/
def carb_by_meal0 : Meal → ℚ := fun m =>
  match m with
  | Meal.Snack => carb_splits CarbSlot.Snack
  | _ => 0

/-- Source line 264: Breakfast is set to carb_splits Breakfast. -/
def carb_by_meal1 : Meal → ℚ := fun m =>
  if m = Meal.Breakfast then carb_splits CarbSlot.Breakfast else carb_by_meal0 m

/-- Source lines 266-270: the PostWorkout 0.40 share is added onto the
resolved post-workout meal. The membership guard of the source always
holds, since the dict holds all four meals and the resolver returns one
of Breakfast, Lunch, Dinner. -/
def carb_by_meal2 (t : TrainTiming) : Meal → ℚ := fun m =>
  if m = post_workout_meal t then
    carb_by_meal1 m + carb_splits CarbSlot.PostWorkout
  else carb_by_meal1 m

/-- Source lines 272-275: Dinner is always a key, so the else branch runs:
Dinner gets carb_splits Dinner added only when its fraction is still 0. -/
def carb_by_meal (t : TrainTiming) (m : Meal) : ℚ :=
  if m = Meal.Dinner then
    carb_by_meal2 t Meal.Dinner +
      (if carb_by_meal2 t Meal.Dinner = 0 then carb_splits CarbSlot.Dinner else 0)
  else carb_by_meal2 t m

/-- Source line 279: protein_by_meal copies protein_splits meal by meal. -/
def protein_by_meal : Meal → ℚ := fun m => protein_splits m

/-- Sum of the four per-meal carb fractions. -/
def carb_frac_sum (t : TrainTiming) : ℚ :=
  carb_by_meal t Meal.Breakfast + carb_by_meal t Meal.Lunch +
    carb_by_meal t Meal.Dinner + carb_by_meal t Meal.Snack

/-- A food suggestion row: name, grams and displayed kcal. -/
structure Suggestion where
  food : String
  grams : ℤ
  kcal : ℤ
deriving DecidableEq

/-- Source, catalog branch of suggest_for_meal: grams = int(kcal/cal100*100)
when cal100 > 0 else 0, displayed kcal = round(cal100*grams/100). -/
def catalog_item_suggestion (target_kcal : ℚ) (name : String) (cal100 : ℚ) : Suggestion :=
  let grams : ℤ := if cal100 > 0 then truncQ (target_kcal / cal100 * 100) else 0
  { food := name, grams := grams, kcal := roundTE (cal100 * (grams : ℚ) / 100) }

/-- Source, default branch of suggest_for_meal: grams as in the catalog
branch, but displayed kcal = int(cal100*grams/100), truncated. -/
def default_item_suggestion (target_kcal : ℚ) (name : String) (cal100 : ℚ) : Suggestion :=
  let grams : ℤ := if cal100 > 0 then truncQ (target_kcal / cal100 * 100) else 0
  { food := name, grams := grams, kcal := truncQ (cal100 * (grams : ℚ) / 100) }

/-- Source: default_carbs, names with cal_per_100g. -/
def default_carbs : List (String × ℚ) :=
  [("Cooked white rice", 130), ("Cooked sweet potato", 90),
   ("Oats (dry)", 389), ("Bread (slice)", 250)]

/-- Source: default_proteins, names with cal_per_100g. -/
def default_proteins : List (String × ℚ) :=
  [("Chicken breast (cooked)", 165), ("Egg (whole)", 155),
   ("Greek yogurt", 59), ("Tofu (firm)", 76)]

/-- An uploaded tabular catalog, abstracted to its column-name list, the
only part the validation logic of load_food_db inspects. -/
structure RawDF where
  columns : List String
deriving DecidableEq

/-- ASCII lowercase of a string, as the source applies to column names. -/
def lowerStr (s : String) : String := String.mk (lower_chars s)

/-- Source: load_food_db returns None unless the lowercased columns hold
both food and cal_per_100g; otherwise it lowercases the column names and
keeps the frame. -/
def load_food_db (df : Option RawDF) : Option RawDF :=
  match df with
  | none => none
  | some d =>
    let cols := d.columns.map lowerStr
    if "food" ∈ cols ∧ "cal_per_100g" ∈ cols then some ⟨cols⟩ else none

/-- Source, sidebar upload handling: after a successful parse, the warning
about missing expected columns is shown exactly when load_food_db returned
None. -/
def upload_warning (df : RawDF) : Bool := (load_food_db (some df)).isNone

/-- Source: suggest_for_meal. The catalog branch maps the randomly sampled
items, passed here explicitly as name and cal_per_100g pairs since the
sampling is an external random source; the no-catalog branch uses the first
default carb item and the first default protein item. -/
def suggest_for_meal (db : Option RawDF) (carb_items protein_items : List (String × ℚ))
    (carb_kcal protein_kcal : ℚ) : List Suggestion × List Suggestion :=
  match db with
  | some _ =>
    (carb_items.map (fun it => catalog_item_suggestion carb_kcal it.1 it.2),
     protein_items.map (fun it => catalog_item_suggestion protein_kcal it.1 it.2))
  | none =>
    let c := default_carbs.getD 0 ("", 0)
    let p := default_proteins.getD 0 ("", 0)
    ([default_item_suggestion carb_kcal c.1 c.2],
     [default_item_suggestion protein_kcal p.1 p.2])

/-- The post-workout meal each timing is expected to resolve to, the table
stated by the specification. -/
def resolved_meal_table : TrainTiming → Meal
  | TrainTiming.AfterBreakfastEarly => Meal.Breakfast
  | TrainTiming.AfterBreakfastLate => Meal.Breakfast
  | TrainTiming.BeforeLunch => Meal.Lunch
  | TrainTiming.AfterLunch => Meal.Lunch
  | TrainTiming.BeforeDinner => Meal.Dinner
  | TrainTiming.AfterDinner => Meal.Dinner
  | TrainTiming.LateNight => Meal.Dinner
  | TrainTiming.RestDay => Meal.Lunch

end Planner

namespace Planner

/-- The resolver agrees with the expected table on all eight timings. -/
theorem post_workout_meal_eq : ∀ t, post_workout_meal t = resolved_meal_table t := by
  decide

@[simp] theorem meal_bl : Meal.Breakfast ≠ Meal.Lunch := by decide

@[simp] theorem meal_bd : Meal.Breakfast ≠ Meal.Dinner := by decide

@[simp] theorem meal_bs : Meal.Breakfast ≠ Meal.Snack := by decide

@[simp] theorem meal_lb : Meal.Lunch ≠ Meal.Breakfast := by decide

@[simp] theorem meal_ld : Meal.Lunch ≠ Meal.Dinner := by decide

@[simp] theorem meal_ls : Meal.Lunch ≠ Meal.Snack := by decide

@[simp] theorem meal_db : Meal.Dinner ≠ Meal.Breakfast := by decide

@[simp] theorem meal_dl : Meal.Dinner ≠ Meal.Lunch := by decide

@[simp] theorem meal_ds : Meal.Dinner ≠ Meal.Snack := by decide

@[simp] theorem meal_sb : Meal.Snack ≠ Meal.Breakfast := by decide

@[simp] theorem meal_sl : Meal.Snack ≠ Meal.Lunch := by decide

@[simp] theorem meal_sd : Meal.Snack ≠ Meal.Dinner := by decide

@[simp] theorem point_four_ne_zero : (0.40 : ℚ) ≠ 0 := by norm_num

/-- Closed form of the final carb fractions, by case analysis over the
eight timings and four meals. -/
theorem carb_by_meal_eval (t : TrainTiming) (m : Meal) :
    carb_by_meal t m =
      (match m with
       | Meal.Breakfast => if resolved_meal_table t = Meal.Breakfast then 3/5 else 1/5
       | Meal.Lunch => if resolved_meal_table t = Meal.Lunch then 2/5 else 0
       | Meal.Dinner => if resolved_meal_table t = Meal.Dinner then 2/5 else 3/10
       | Meal.Snack => (1/10 : ℚ)) := by
  cases t <;> cases m <;>
    simp [carb_by_meal, carb_by_meal2, carb_by_meal1, carb_by_meal0, carb_splits,
      post_workout_meal_eq, resolved_meal_table] <;>
    norm_num

/-- Rounding toward even of a nonnegative rational is nonnegative. -/
theorem roundTE_nonneg (q : ℚ) (h : 0 ≤ q) : 0 ≤ roundTE q := by
  unfold roundTE
  have hf : (0 : ℤ) ≤ ⌊q⌋ := Int.floor_nonneg.mpr h
  dsimp only
  split_ifs <;> omega

/-- Rounding a nonnegative rational to one decimal is nonnegative. -/
theorem pyRound1_nonneg (q : ℚ) (h : 0 ≤ q) : 0 ≤ pyRound1 q := by
  unfold pyRound1
  have h10 : 0 ≤ q * 10 := by positivity
  have hr : (0 : ℤ) ≤ roundTE (q * 10) := roundTE_nonneg _ h10
  have hc : (0 : ℚ) ≤ (roundTE (q * 10) : ℚ) := Int.cast_nonneg.mpr hr
  exact div_nonneg hc (by norm_num)

end Planner

namespace Planner

/-- Claim C1: in the meal apportionment, the Dinner base 0.30 is added only
when the Dinner fraction is still 0 after the PostWorkout 0.40 share is
assigned, so Dinner ends at 0.40 when it is the resolved post-workout meal
and at 0.30 otherwise, and the four carb fractions do not always sum to 1. -/
theorem claim_C1 :
    (∀ t, post_workout_meal t = Meal.Dinner → carb_by_meal t Meal.Dinner = 0.40) ∧
    (∀ t, post_workout_meal t ≠ Meal.Dinner → carb_by_meal t Meal.Dinner = 0.30) ∧
    ¬ (∀ t, carb_frac_sum t = 1) := by
  refine ⟨?_, ?_, ?_⟩
  · intro t h
    rw [post_workout_meal_eq] at h
    norm_num [carb_by_meal_eval, h]
  · intro t h
    rw [post_workout_meal_eq] at h
    norm_num [carb_by_meal_eval, h]
  · intro hall
    have h := hall TrainTiming.BeforeDinner
    norm_num [carb_frac_sum, carb_by_meal_eval, resolved_meal_table] at h

/-- Witness for claim C1 at the concrete timings Train before dinner and
Rest day. -/
theorem claim_C1_witness :
    carb_by_meal TrainTiming.BeforeDinner Meal.Dinner = 0.40 ∧
    carb_by_meal TrainTiming.RestDay Meal.Dinner = 0.30 :=
  ⟨claim_C1.1 TrainTiming.BeforeDinner (by decide),
   claim_C1.2.1 TrainTiming.RestDay (by decide)⟩

/-- Claim C2: the post-workout meal resolves to Breakfast for both
after-breakfast timings, Lunch for before and after lunch, Dinner for
before dinner, after dinner and late night, and Lunch for the rest day
default; in particular Train before dinner sends the 0.40 share to Dinner
and none to Lunch. -/
theorem claim_C2 :
    post_workout_meal TrainTiming.AfterBreakfastEarly = Meal.Breakfast ∧
    post_workout_meal TrainTiming.AfterBreakfastLate = Meal.Breakfast ∧
    post_workout_meal TrainTiming.BeforeLunch = Meal.Lunch ∧
    post_workout_meal TrainTiming.AfterLunch = Meal.Lunch ∧
    post_workout_meal TrainTiming.BeforeDinner = Meal.Dinner ∧
    post_workout_meal TrainTiming.AfterDinner = Meal.Dinner ∧
    post_workout_meal TrainTiming.LateNight = Meal.Dinner ∧
    post_workout_meal TrainTiming.RestDay = Meal.Lunch ∧
    carb_by_meal TrainTiming.BeforeDinner Meal.Dinner = 0.40 ∧
    carb_by_meal TrainTiming.BeforeDinner Meal.Lunch = 0 := by
  refine ⟨by decide, by decide, by decide, by decide, by decide, by decide,
    by decide, by decide, ?_, ?_⟩
  · norm_num [carb_by_meal_eval, resolved_meal_table]
  · norm_num [carb_by_meal_eval, resolved_meal_table]

/-- Claim C3: the residual carb budget warns exactly when negative, is
clamped at 0, and the resulting carb grams are never negative. -/
theorem claim_C3 :
    ∀ (sex : Sex) (w target : ℚ),
      (over_budget_warning sex w target = true ↔ remaining_kcal_raw sex w target < 0) ∧
      remaining_kcal sex w target = max 0 (remaining_kcal_raw sex w target) ∧
      carb_grams sex w target = pyRound1 (remaining_kcal sex w target / 4) ∧
      0 ≤ carb_grams sex w target := by
  intro sex w target
  refine ⟨?_, ?_, rfl, ?_⟩
  · simp [over_budget_warning]
  · unfold remaining_kcal
    split_ifs with h
    · rfl
    · exact (max_eq_right (le_of_not_lt h)).symm
  · unfold carb_grams
    apply pyRound1_nonneg
    apply div_nonneg _ (by norm_num)
    unfold remaining_kcal
    split_ifs with h
    · exact le_max_left _ _
    · exact le_of_not_lt h

/-- Claim C4: no_activity_total is bmr / 0.7; with strength training the
training target adds the level kcal and cardio before the 0.64 multiplier
and the rest target omits the level kcal; without strength training the
single target is (b + cardio) * 0.64 and both targets agree. -/
theorem claim_C4 :
    ∀ (bmr : ℚ) (act : ActivityInputs),
      no_activity_total bmr = bmr / 0.7 ∧
      strength_est_map StrengthLevel.Beginner = 150 ∧
      strength_est_map StrengthLevel.Intermediate = 200 ∧
      strength_est_map StrengthLevel.Advanced = 250 ∧
      (act.has_strength = true →
        daily_target_train bmr act =
          (no_activity_total bmr + strength_est_map act.strength_level + act.cardio_cal) * 0.64 ∧
        daily_target_rest bmr act = (no_activity_total bmr + act.cardio_cal) * 0.64) ∧
      (act.has_strength = false →
        daily_target_train bmr act = (no_activity_total bmr + act.cardio_cal) * 0.64 ∧
        daily_target_train bmr act = daily_target_rest bmr act) := by
  intro bmr act
  refine ⟨rfl, rfl, rfl, rfl, ?_, ?_⟩
  · intro h
    constructor <;> simp [daily_target_train, daily_target_rest, strength_cal, h]
  · intro h
    constructor <;> simp [daily_target_train, daily_target_rest, strength_cal, h]

/-- Witness for claim C4 at bmr 1400, cardio 100, Beginner level, in both
the strength and the no-strength configuration. -/
theorem claim_C4_witness :
    daily_target_train 1400 ⟨true, StrengthLevel.Beginner, 100⟩ =
      (no_activity_total 1400 + strength_est_map StrengthLevel.Beginner + 100) * 0.64 ∧
    daily_target_train 1400 ⟨false, StrengthLevel.Beginner, 100⟩ =
      daily_target_rest 1400 ⟨false, StrengthLevel.Beginner, 100⟩ :=
  ⟨((claim_C4 1400 ⟨true, StrengthLevel.Beginner, 100⟩).2.2.2.2.1 rfl).1,
   ((claim_C4 1400 ⟨false, StrengthLevel.Beginner, 100⟩).2.2.2.2.2 rfl).2⟩

end Planner

namespace Planner

/-- Counterexample to claim C5: at weight 60, height 165, age 28 the Male
BMR is not the Female BMR plus 161. -/
theorem claim_C5_counterexample :
    calc_bmr_mifflin 60 165 28 Sex.Male ≠ calc_bmr_mifflin 60 165 28 Sex.Female + 161 := by
  norm_num [calc_bmr_mifflin]

/-- Claim C5, amended: for identical weight, height and age the Male BMR
equals the Female BMR plus 166, since the formulas differ only in the
final constant, +5 against -161. -/
theorem claim_C5 :
    ∀ w h a : ℚ, calc_bmr_mifflin w h a Sex.Male = calc_bmr_mifflin w h a Sex.Female + 166 := by
  intro w h a
  simp only [calc_bmr_mifflin]
  ring

/-- Claim C6: fat grams are exactly one of 50, 60, 70, chosen by sex and
the 120 kg threshold alone, and fat kcal is fat grams times 9. The
definition of fat_grams takes no daily-target argument, so independence
from the daily target holds by construction. -/
theorem claim_C6 :
    ∀ (sex : Sex) (w : ℚ),
      (fat_grams sex w = 50 ∨ fat_grams sex w = 60 ∨ fat_grams sex w = 70) ∧
      (sex = Sex.Male → 120 ≤ w → fat_grams sex w = 70) ∧
      (sex = Sex.Male → w < 120 → fat_grams sex w = 60) ∧
      (sex = Sex.Female → fat_grams sex w = 50) ∧
      fat_kcal sex w = fat_grams sex w * 9 := by
  intro sex w
  cases sex with
  | Male =>
    refine ⟨?_, fun _ h => ?_, fun _ h => ?_, fun h => Sex.noConfusion h, rfl⟩
    · by_cases hw : w ≥ 120
      · exact Or.inr (Or.inr (by simp [fat_grams, hw]))
      · exact Or.inr (Or.inl (by simp [fat_grams, hw]))
    · simp [fat_grams, h]
    · simp [fat_grams, not_le.mpr h]
  | Female =>
    exact ⟨Or.inl rfl, fun h => Sex.noConfusion h, fun h => Sex.noConfusion h,
      fun _ => rfl, rfl⟩

/-- Witness for claim C6 at a heavy male, a light male and a female. -/
theorem claim_C6_witness :
    fat_grams Sex.Male 130 = 70 ∧ fat_grams Sex.Male 60 = 60 ∧ fat_grams Sex.Female 60 = 50 :=
  ⟨(claim_C6 Sex.Male 130).2.1 rfl (by norm_num),
   (claim_C6 Sex.Male 60).2.2.1 rfl (by norm_num),
   (claim_C6 Sex.Female 60).2.2.2.1 rfl⟩

/-- Counterexample to claim C7: for target 12 kcal of the default rice item
the default branch displays 11 kcal, the truncation of 11.7, while rounding
11.7 to the nearest integer gives 12. -/
theorem claim_C7_counterexample :
    (default_item_suggestion 12 "Cooked white rice" 130).kcal = 11 ∧
    roundTE ((130 : ℚ) * ((default_item_suggestion 12 "Cooked white rice" 130).grams : ℚ) / 100) = 12 := by
  have hg : (default_item_suggestion 12 "Cooked white rice" 130).grams = 9 := by
    norm_num [default_item_suggestion, truncQ]
  constructor
  · norm_num [default_item_suggestion, truncQ]
  · rw [hg]
    norm_num [roundTE]

/-- Claim C7, amended: for a positive per-100g calorie value the suggested
grams are the truncation of target / cal_per_100g * 100 in both branches;
the displayed kcal are cal_per_100g * grams / 100 rounded to the nearest
integer in the catalog branch but truncated to an integer in the default
branch. -/
theorem claim_C7 :
    ∀ (target cal100 : ℚ) (name : String), 0 < cal100 →
      (catalog_item_suggestion target name cal100).grams = truncQ (target / cal100 * 100) ∧
      (catalog_item_suggestion target name cal100).kcal =
        roundTE (cal100 * (truncQ (target / cal100 * 100) : ℚ) / 100) ∧
      (default_item_suggestion target name cal100).grams = truncQ (target / cal100 * 100) ∧
      (default_item_suggestion target name cal100).kcal =
        truncQ (cal100 * (truncQ (target / cal100 * 100) : ℚ) / 100) := by
  intro target cal100 name h
  refine ⟨?_, ?_, ?_, ?_⟩ <;> simp [catalog_item_suggestion, default_item_suggestion, h]

/-- Witness for claim C7 at target 12 kcal and the 130 kcal rice item. -/
theorem claim_C7_witness :
    (catalog_item_suggestion 12 "Cooked white rice" 130).grams = truncQ ((12 : ℚ) / 130 * 100) ∧
    (catalog_item_suggestion 12 "Cooked white rice" 130).kcal =
      roundTE ((130 : ℚ) * (truncQ ((12 : ℚ) / 130 * 100) : ℚ) / 100) ∧
    (default_item_suggestion 12 "Cooked white rice" 130).grams = truncQ ((12 : ℚ) / 130 * 100) ∧
    (default_item_suggestion 12 "Cooked white rice" 130).kcal =
      truncQ ((130 : ℚ) * (truncQ ((12 : ℚ) / 130 * 100) : ℚ) / 100) :=
  claim_C7 12 130 "Cooked white rice" (by norm_num)

/-- Claim C8: a catalog lacking a required column is rejected by
load_food_db, the upload handler surfaces the warning, and the suggestion
step proceeds with the built-in default items exactly as with no catalog. -/
theorem claim_C8 :
    ∀ (df : RawDF) (carb_items protein_items : List (String × ℚ)) (ck pk : ℚ),
      ("food" ∉ df.columns.map lowerStr ∨ "cal_per_100g" ∉ df.columns.map lowerStr) →
        load_food_db (some df) = none ∧
        upload_warning df = true ∧
        suggest_for_meal (load_food_db (some df)) carb_items protein_items ck pk =
          ([default_item_suggestion ck "Cooked white rice" 130],
           [default_item_suggestion pk "Chicken breast (cooked)" 165]) := by
  intro df carb_items protein_items ck pk h
  have hcond : ¬("food" ∈ df.columns.map lowerStr ∧ "cal_per_100g" ∈ df.columns.map lowerStr) := by
    tauto
  have hnone : load_food_db (some df) = none := by
    simp only [load_food_db]
    exact if_neg hcond
  refine ⟨hnone, ?_, ?_⟩
  · simp [upload_warning, hnone]
  · rw [hnone]
    rfl

/-- Witness for claim C8 with a catalog holding only food and category
columns, so cal_per_100g is missing. -/
theorem claim_C8_witness :
    load_food_db (some ⟨["food", "category"]⟩) = none ∧
    upload_warning ⟨["food", "category"]⟩ = true ∧
    suggest_for_meal (load_food_db (some ⟨["food", "category"]⟩)) [] [] 100 80 =
      ([default_item_suggestion 100 "Cooked white rice" 130],
       [default_item_suggestion 80 "Chicken breast (cooked)" 165]) :=
  claim_C8 ⟨["food", "category"]⟩ [] [] 100 80 (by decide)

/-- Claim C9: the protein fractions are the base table unchanged for every
meal and sum to 1 exactly. -/
theorem claim_C9 :
    protein_by_meal Meal.Breakfast = 0.20 ∧
    protein_by_meal Meal.Lunch = 0.30 ∧
    protein_by_meal Meal.Dinner = 0.30 ∧
    protein_by_meal Meal.Snack = 0.20 ∧
    (∀ m, protein_by_meal m = protein_splits m) ∧
    protein_by_meal Meal.Breakfast + protein_by_meal Meal.Lunch +
      protein_by_meal Meal.Dinner + protein_by_meal Meal.Snack = 1 := by
  refine ⟨rfl, rfl, rfl, rfl, fun m => rfl, ?_⟩
  norm_num [protein_by_meal, protein_splits]

/-- Claim C10: every per-meal carb fraction is nonnegative and the four
fractions sum to 0.70 exactly when the resolved post-workout meal is
Dinner, and to 1 otherwise. -/
theorem claim_C10 :
    ∀ (t : TrainTiming) (m : Meal),
      0 ≤ carb_by_meal t m ∧
      carb_frac_sum t = (if post_workout_meal t = Meal.Dinner then 0.70 else 1) := by
  intro t m
  constructor
  · rw [carb_by_meal_eval]
    cases m <;> split_ifs <;> norm_num
  · rw [post_workout_meal_eq]
    cases t <;>
      norm_num [carb_frac_sum, carb_by_meal_eval, resolved_meal_table]

end Planner
